import Mathlib

/-!
Verification of the Entity Upload & Completion Orchestration Engine of the
norman SDK (norman_sdk_python).  The definitions below are shallow embeddings
of the Python source under `src/norman/`; the theorems settle the frozen
claims about the natural-language specification.
-/

set_option autoImplicit false

namespace NormanSdk

/-! ## Status flags (norman_objects.shared.status_flags.status_flag_value) -/

/-- Status flag values of an entity, as enumerated in the spec and consumed by
`FlagStatusResolver.wait_for_entities` (src/norman/resolvers/flag_status_resolver.py). -/
inductive StatusFlagValue where
  | Not_Started
  | Enqueued
  | In_Progress
  | Finished
  | Error
deriving DecidableEq, Repr

/-- The flag map one polling query returns: entity id to its list of flags.
Models the `dict[str, list[StatusFlag]]` result of
`Persist.status_flags.get_status_flags`; only `flag_value` is inspected. -/
abbrev FlagMap : Type := List (String × List StatusFlagValue)

/-- Flattening of the returned flag map, mirroring the loop
`for flag_list in status_flags.values(): flattened_flags += flag_list`
(flag_status_resolver.py lines 77-79). -/
def flattenFlags (m : FlagMap) : List StatusFlagValue :=
  (m.map Prod.snd).flatten

/-- One pass of the flag inspection loop in `wait_for_entities`
(flag_status_resolver.py lines 81-86): raise (`none`) the moment a flag is
`Error`, otherwise accumulate whether every flag seen so far is `Finished`. -/
def scanFlagsLoop : List StatusFlagValue → Bool → Option Bool
  | [], all_flags_finished => some all_flags_finished
  | f :: rest, all_flags_finished =>
    if f = StatusFlagValue.Error then none
    else scanFlagsLoop rest (all_flags_finished && decide (f = StatusFlagValue.Finished))

/-- Outcome of one `wait_for_entities` call. -/
inductive CallOutcome where
  | constraintError
  | noFlagsFound
  | entityFailed
  | success
  | timedOut
deriving DecidableEq, Repr

/-- The polling loop of `wait_for_entities` (flag_status_resolver.py lines
70-97), abstracted over the script of query results the backend returns on the
successive ticks (`none` models a null result).  The wall clock is abstracted
into the length of the script: an exhausted script is the configured timeout
elapsing.  The second component counts how many status queries were issued. -/
def pollLoop : List (Option FlagMap) → CallOutcome × Nat
  | [] => (CallOutcome.timedOut, 0)
  | none :: _ => (CallOutcome.noFlagsFound, 1)
  | some m :: rest =>
    match scanFlagsLoop (flattenFlags m) true with
    | none => (CallOutcome.entityFailed, 1)
    | some true => (CallOutcome.success, 1)
    | some false =>
      let r := pollLoop rest
      (r.1, r.2 + 1)

/-- Query constraint built by `QueryConstraints.includes`. -/
structure QueryConstraint where
  table : String
  field : String
  values : List String
deriving DecidableEq, Repr

/-- Modelled from the spec: the class `QueryConstraints` lives in the external
`norman_objects` package, whose source is not under src/.  Per the spec
(polling an empty set is a caller error, never instant completion) and the
unit test `test_wait_for_entities_with_empty_entity_list_raises_error`
(tests/unit/resolvers/flag_status_resolver_test.py, expecting a ValueError
about an empty collection from `QueryConstraints`), `includes` rejects an
empty value collection. -/
def QueryConstraints.includes (table : String) (field : String)
    (values : List String) : Option QueryConstraint :=
  if values.isEmpty then none else some ⟨table, field, values⟩

/-- Whole call `FlagStatusResolver.wait_for_entities` (flag_status_resolver.py
lines 66-97): build the inclusion constraint for the entity ids, then run the
polling loop over the script of backend answers.  Returns the outcome together
with the number of status queries issued. -/
def wait_for_entities (entity_ids : List String)
    (ticks : List (Option FlagMap)) : CallOutcome × Nat :=
  match QueryConstraints.includes "Status_Flags" "Entity_ID" entity_ids with
  | none => (CallOutcome.constraintError, 0)
  | some _ => pollLoop ticks

/-! ### Lemmas about the flag scan -/

theorem scanFlagsLoop_eq_none_iff (l : List StatusFlagValue) (acc : Bool) :
    scanFlagsLoop l acc = none ↔ l.any (fun f => f = StatusFlagValue.Error) = true := by
  induction l generalizing acc with
  | nil => simp [scanFlagsLoop]
  | cons f rest ih =>
    by_cases h : f = StatusFlagValue.Error
    · simp [scanFlagsLoop, h]
    · simp [scanFlagsLoop, h, ih]

theorem scanFlagsLoop_eq_some (l : List StatusFlagValue) (acc : Bool)
    (h : l.any (fun f => f = StatusFlagValue.Error) = false) :
    scanFlagsLoop l acc = some (acc && l.all (fun f => f = StatusFlagValue.Finished)) := by
  induction l generalizing acc with
  | nil => simp [scanFlagsLoop]
  | cons f rest ih =>
    simp only [List.any_cons, Bool.or_eq_false_iff] at h
    have hf : ¬ f = StatusFlagValue.Error := by
      intro hc
      simp [hc] at h
    rw [scanFlagsLoop, if_neg hf, ih _ h.2]
    simp [List.all_cons, Bool.and_assoc, Bool.and_comm, Bool.and_left_comm]

theorem all_finished_no_error (l : List StatusFlagValue)
    (h : l.all (fun f => f = StatusFlagValue.Finished) = true) :
    l.any (fun f => f = StatusFlagValue.Error) = false := by
  induction l with
  | nil => simp
  | cons f rest ih =>
    simp only [List.all_cons, Bool.and_eq_true, decide_eq_true_eq] at h
    simp [h.1, ih h.2]

theorem pollLoop_ne_success_zero (ticks : List (Option FlagMap)) :
    pollLoop ticks ≠ (CallOutcome.success, 0) := by
  match ticks with
  | [] => simp [pollLoop]
  | none :: rest => simp [pollLoop]
  | some m :: rest =>
    rw [pollLoop]
    match scanFlagsLoop (flattenFlags m) true with
    | none => simp
    | some true => simp
    | some false =>
      intro hc
      have := congrArg Prod.snd hc
      simp at this

theorem pollLoop_cons_some (m : FlagMap) (rest : List (Option FlagMap)) :
    pollLoop (some m :: rest) =
      match scanFlagsLoop (flattenFlags m) true with
      | none => (CallOutcome.entityFailed, 1)
      | some true => (CallOutcome.success, 1)
      | some false => ((pollLoop rest).1, (pollLoop rest).2 + 1) := rfl

/-- C1: on every polling tick of `wait_for_entities` that returns the flag map
`m`, the call fails with the entity-failed error on that same tick whenever
any returned flag has value `Error` — even when every other returned flag is
already `Finished` — and the call returns success on that tick exactly when
every returned flag across every polled entity has value `Finished`. -/
theorem poller_error_short_circuits_and_success_iff_all_finished
    (m : FlagMap) (rest : List (Option FlagMap)) :
    ((flattenFlags m).any (fun f => f = StatusFlagValue.Error) = true →
      pollLoop (some m :: rest) = (CallOutcome.entityFailed, 1))
    ∧ (pollLoop (some m :: rest) = (CallOutcome.success, 1) ↔
      (flattenFlags m).all (fun f => f = StatusFlagValue.Finished) = true) := by
  constructor
  · intro h
    rw [pollLoop_cons_some, (scanFlagsLoop_eq_none_iff _ true).mpr h]
  · constructor
    · intro h
      rw [pollLoop_cons_some] at h
      by_cases herr : (flattenFlags m).any (fun f => f = StatusFlagValue.Error) = true
      · rw [(scanFlagsLoop_eq_none_iff _ true).mpr herr] at h
        simp at h
      · have hf : (flattenFlags m).any (fun f => f = StatusFlagValue.Error) = false :=
          Bool.eq_false_iff.mpr herr
        rw [scanFlagsLoop_eq_some _ true hf, Bool.true_and] at h
        cases hall : (flattenFlags m).all (fun f => f = StatusFlagValue.Finished) with
        | true => rfl
        | false =>
          rw [hall] at h
          have hsnd := congrArg Prod.snd h
          have hfst := congrArg Prod.fst h
          simp only at hsnd hfst
          exact absurd (Prod.ext hfst (Nat.succ_injective hsnd))
            (pollLoop_ne_success_zero rest)
    · intro hall
      have herr := all_finished_no_error _ hall
      have hs := scanFlagsLoop_eq_some (flattenFlags m) true herr
      rw [hall, Bool.true_and] at hs
      rw [pollLoop_cons_some, hs]

theorem poller_error_short_circuits_witness :
    pollLoop [some [("a", [StatusFlagValue.Finished]), ("b", [StatusFlagValue.Error])]]
        = (CallOutcome.entityFailed, 1)
    ∧ pollLoop [some [("c", [StatusFlagValue.Finished, StatusFlagValue.Finished])]]
        = (CallOutcome.success, 1) :=
  ⟨(poller_error_short_circuits_and_success_iff_all_finished
      [("a", [StatusFlagValue.Finished]), ("b", [StatusFlagValue.Error])] []).1 (by decide),
   (poller_error_short_circuits_and_success_iff_all_finished
      [("c", [StatusFlagValue.Finished, StatusFlagValue.Finished])] []).2.mpr (by decide)⟩

/-- C2 counterexample: on a tick whose status query returns a non-null but
empty flag map, the poller returns success on that very tick, instead of
failing with the no-flags-found error as the claim states. -/
theorem poller_empty_map_returns_success :
    wait_for_entities ["e1"] [some ([] : FlagMap)] = (CallOutcome.success, 1)
    ∧ CallOutcome.success ≠ CallOutcome.noFlagsFound := by
  exact ⟨rfl, by decide⟩

/-- C2 amended: for a non-empty entity-id set, a tick whose status query
returns a null result fails with the no-flags-found error on that tick; a
non-null but empty flag map is instead treated as vacuously all-finished and
the call returns success on that tick. -/
theorem poller_null_vs_empty_flag_result (entity_ids : List String)
    (rest : List (Option FlagMap)) (h : entity_ids ≠ []) :
    wait_for_entities entity_ids (none :: rest) = (CallOutcome.noFlagsFound, 1)
    ∧ wait_for_entities entity_ids (some ([] : FlagMap) :: rest)
        = (CallOutcome.success, 1) := by
  have hne : entity_ids.isEmpty = false := by
    cases entity_ids with
    | nil => exact absurd rfl h
    | cons a l => rfl
  constructor
  · simp [wait_for_entities, QueryConstraints.includes, hne, pollLoop]
  · simp [wait_for_entities, QueryConstraints.includes, hne, pollLoop_cons_some,
      flattenFlags, scanFlagsLoop]

theorem poller_null_vs_empty_flag_result_witness :
    wait_for_entities ["e1"] [none] = (CallOutcome.noFlagsFound, 1)
    ∧ wait_for_entities ["e1"] [some ([] : FlagMap)] = (CallOutcome.success, 1) :=
  poller_null_vs_empty_flag_result ["e1"] [] (by decide)

/-- C5: for the empty entity-id set, `wait_for_entities` fails while building
the inclusion query constraint, before any status query is issued: the call
ends with the constraint error and zero queries sent to the backend. -/
theorem poller_empty_entity_set_fails_before_any_query
    (ticks : List (Option FlagMap)) :
    wait_for_entities [] ticks = (CallOutcome.constraintError, 0) := rfl

/-! ## Upload dispatcher
(`InvocationManager._upload_inputs`, invocation_manager.py lines 156-167, and
`ModelUploadManager._upload_assets`, model_upload_manager.py lines 142-154). -/

/-- Source of a named item (input or asset).  Modelled from the spec: the
class `InputSource` lives in the external `norman_objects` package, absent
from src/; per the spec it is the enum Primitive, File, Link, Stream, and the
managers compare it against plain strings, so it is a string enum whose
values equal the member names. -/
inductive InputSource where
  | Primitive
  | File
  | Link
  | Stream
deriving DecidableEq, Repr

/-- The string value of an `InputSource` member. -/
def InputSource.value : InputSource → String
  | InputSource.Primitive => "Primitive"
  | InputSource.File => "File"
  | InputSource.Link => "Link"
  | InputSource.Stream => "Stream"

/-- Scheduling events of one dispatcher call: the per-item transfer/submit
operation of item `i` is issued, or it completes. -/
inductive DispatchEvent where
  | issue (i : Nat)
  | complete (i : Nat)
deriving DecidableEq, Repr

/-- Event trace of the upload loops: both `_upload_inputs` and
`_upload_assets` run `for item: await handle(item)`, so each iteration issues
item `i` and awaits its completion before the loop moves to item `i + 1`. -/
def uploadLoopTrace : List InputSource → Nat → List DispatchEvent
  | [], _ => []
  | _ :: rest, i =>
    DispatchEvent.issue i :: DispatchEvent.complete i :: uploadLoopTrace rest (i + 1)

/-- Trace of one whole dispatcher call over the given items. -/
def upload_inputs_trace (items : List InputSource) : List DispatchEvent :=
  uploadLoopTrace items 0

/-- Stated from the claim words, for comparison with the source trace: a
dispatch is a true fan-out when every issue event precedes every completion
event, i.e. no issue occurs after a completion. -/
def specFanOut : List DispatchEvent → Bool
  | [] => true
  | DispatchEvent.issue _ :: rest => specFanOut rest
  | DispatchEvent.complete _ :: rest =>
    !(rest.any (fun e => match e with
      | DispatchEvent.issue _ => true
      | DispatchEvent.complete _ => false)) && specFanOut rest

/-- A dispatch trace is strictly sequential when it is issue 0, complete 0,
issue 1, complete 1, and so on: every item is awaited to completion before
the next is issued. -/
def sequentialDispatch : List DispatchEvent → Bool
  | [] => true
  | DispatchEvent.issue i :: DispatchEvent.complete j :: rest =>
    decide (i = j) && sequentialDispatch rest
  | _ => false

theorem uploadLoopTrace_sequential (items : List InputSource) :
    ∀ k, sequentialDispatch (uploadLoopTrace items k) = true := by
  induction items with
  | nil => intro k; rfl
  | cons a rest ih =>
    intro k
    simp [uploadLoopTrace, sequentialDispatch, ih (k + 1)]

theorem complete_mem_uploadLoopTrace (items : List InputSource) :
    ∀ k i, i < items.length → DispatchEvent.complete (k + i) ∈ uploadLoopTrace items k := by
  induction items with
  | nil => intro k i h; simp at h
  | cons a rest ih =>
    intro k i h
    cases i with
    | zero => simp [uploadLoopTrace]
    | succ n =>
      have hmem := ih (k + 1) n (by simpa using Nat.lt_of_succ_lt_succ h)
      have heq : k + 1 + n = k + (n + 1) := by omega
      rw [heq] at hmem
      simp [uploadLoopTrace, hmem]

/-- C3 counterexample: for three items with sources Primitive, File and Link,
the dispatcher trace interleaves each completion before the next issue, so
the three operations are never all in flight together: the fan-out property
stated by the claim fails on this concrete input. -/
theorem dispatcher_three_items_not_fan_out :
    upload_inputs_trace [InputSource.Primitive, InputSource.File, InputSource.Link]
      = [DispatchEvent.issue 0, DispatchEvent.complete 0, DispatchEvent.issue 1,
         DispatchEvent.complete 1, DispatchEvent.issue 2, DispatchEvent.complete 2]
    ∧ specFanOut (upload_inputs_trace
        [InputSource.Primitive, InputSource.File, InputSource.Link]) = false :=
  ⟨rfl, rfl⟩

/-- C3 amended: the dispatcher issues the per-item operations strictly
sequentially — each item is issued and awaited to completion before the next
is issued — and the call returns only after every item's operation has
resolved (every item's completion event is in the trace). -/
theorem dispatcher_sequential_and_waits_for_all (items : List InputSource) :
    sequentialDispatch (upload_inputs_trace items) = true
    ∧ ∀ i, i < items.length → DispatchEvent.complete i ∈ upload_inputs_trace items := by
  refine ⟨uploadLoopTrace_sequential items 0, fun i h => ?_⟩
  have := complete_mem_uploadLoopTrace items 0 i h
  simpa [upload_inputs_trace] using this

theorem dispatcher_sequential_and_waits_for_all_witness :
    sequentialDispatch (upload_inputs_trace
      [InputSource.Primitive, InputSource.File, InputSource.Link]) = true
    ∧ DispatchEvent.complete 2 ∈ upload_inputs_trace
        [InputSource.Primitive, InputSource.File, InputSource.Link] :=
  ⟨(dispatcher_sequential_and_waits_for_all
      [InputSource.Primitive, InputSource.File, InputSource.Link]).1,
   (dispatcher_sequential_and_waits_for_all
      [InputSource.Primitive, InputSource.File, InputSource.Link]).2 2 (by decide)⟩

/-! ## Python value model and primitive normalization
(`FileTransferService.normalize_primitive_data`, file_transfer_service.py
lines 152-169). -/

/-- Python exception surfaced by the embedded code. -/
inductive PyError where
  | valueError (msg : String)
  | fileNotFoundError (msg : String)
  | typeError (msg : String)
deriving DecidableEq, Repr

/-- JSON-serializable Python value (contents of dicts and lists handed to
`json.dumps`).  Floats carry their Python text representation. -/
inductive PyJson where
  | null
  | bool (b : Bool)
  | int (n : Int)
  | float (text : String)
  | str (s : String)
  | arr (l : List PyJson)
  | obj (d : List (String × PyJson))

/-- Lowercase hexadecimal digit. -/
def hexDigit (n : Nat) : Char :=
  if n < 10 then Char.ofNat (48 + n) else Char.ofNat (97 + (n - 10))

/-- Four lowercase hexadecimal digits, as in a JSON unicode escape. -/
def hex4 (n : Nat) : String :=
  String.mk [hexDigit (n / 4096 % 16), hexDigit (n / 256 % 16),
             hexDigit (n / 16 % 16), hexDigit (n % 16)]

/-- Model of the character escaping of `json.dumps` with its default
`ensure_ascii=True`: quote, backslash and the short control escapes get a
backslash form, remaining control and all non-ASCII characters become unicode
escapes (surrogate pairs above the basic plane), anything else is literal. -/
def jsonEscapeChar (c : Char) : String :=
  if c = '"' then "\\\""
  else if c = '\\' then "\\\\"
  else if c = '\n' then "\\n"
  else if c = '\r' then "\\r"
  else if c = '\t' then "\\t"
  else if c.toNat = 8 then "\\b"
  else if c.toNat = 12 then "\\f"
  else if c.toNat < 32 || c.toNat > 126 then
    if c.toNat ≤ 65535 then "\\u" ++ hex4 c.toNat
    else
      "\\u" ++ hex4 (55296 + (c.toNat - 65536) / 1024)
        ++ "\\u" ++ hex4 (56320 + (c.toNat - 65536) % 1024)
  else String.singleton c

/-- Escape a whole string for JSON output. -/
def jsonEscape (s : String) : String :=
  String.join (s.data.map jsonEscapeChar)

mutual

/-- Model of `json.dumps` with its default separators: the serialization the
source feeds to `.encode("utf-8")` for dict and list values. -/
def jsonDumps : PyJson → String
  | PyJson.null => "null"
  | PyJson.bool true => "true"
  | PyJson.bool false => "false"
  | PyJson.int n => toString n
  | PyJson.float text => text
  | PyJson.str s => "\"" ++ jsonEscape s ++ "\""
  | PyJson.arr l => "[" ++ jsonDumpsArr l ++ "]"
  | PyJson.obj d => "\x7b" ++ jsonDumpsObj d ++ "\x7d"

/-- Comma-separated serialization of a JSON array body. -/
def jsonDumpsArr : List PyJson → String
  | [] => ""
  | [x] => jsonDumps x
  | x :: y :: rest => jsonDumps x ++ ", " ++ jsonDumpsArr (y :: rest)

/-- Comma-separated serialization of a JSON object body. -/
def jsonDumpsObj : List (String × PyJson) → String
  | [] => ""
  | [(k, v)] => "\"" ++ jsonEscape k ++ "\": " ++ jsonDumps v
  | (k, v) :: p :: rest =>
    "\"" ++ jsonEscape k ++ "\": " ++ jsonDumps v ++ ", " ++ jsonDumpsObj (p :: rest)

end

/-- Caller-supplied Python value, as the isinstance chains of
`normalize_primitive_data` and `InputSourceResolver.resolve` distinguish
them.  `bytesBuf` is an `io.BytesIO` (an `IOBase`, hence also a synchronous
stream); the stream constructors stand for objects exposing the asynchronous
or synchronous pull interfaces; `boolVal` is a Python bool, which is an
instance of int (`isinstance(True, int)` holds) and therefore satisfies every
`isinstance(data, (int, float))` check; `other` is any value of no
recognized type. -/
inductive PyData where
  | none_
  | str (s : String)
  | pathVal (p : String)
  | asyncStreamObj
  | syncStreamObj
  | boolVal (b : Bool)
  | intVal (n : Int)
  | floatVal (text : String)
  | bytesVal (b : List Nat)
  | byteArrayVal (b : List Nat)
  | bytesBuf (b : List Nat)
  | dictVal (d : List (String × PyJson))
  | listVal (l : List PyJson)
  | other

/-- UTF-8 encoding of a string, as a list of byte values. -/
def utf8 (s : String) : List Nat :=
  s.toUTF8.toList.map (fun b => b.toNat)

/-- Python str() of a bool: the member name True or False, not a number. -/
def pyBoolStr (b : Bool) : String :=
  if b then "True" else "False"

/-- FileTransferService.normalize_primitive_data (file_transfer_service.py
lines 152-169): the isinstance chain str, bytes or bytearray, BytesIO, int or
float, dict or list, else ValueError.  A bool is an int instance, so it
satisfies `isinstance(data, (int, float))` and is serialized as
`str(data).encode("utf-8")`, giving the text True or False.  The result is
the byte contents of the produced BytesIO buffer. -/
def normalize_primitive_data : PyData → Except PyError (List Nat)
  | PyData.str s => Except.ok (utf8 s)
  | PyData.bytesVal b => Except.ok b
  | PyData.byteArrayVal b => Except.ok b
  | PyData.bytesBuf b => Except.ok b
  | PyData.boolVal b => Except.ok (utf8 (pyBoolStr b))
  | PyData.intVal n => Except.ok (utf8 (toString n))
  | PyData.floatVal text => Except.ok (utf8 text)
  | PyData.dictVal d => Except.ok (utf8 (jsonDumps (PyJson.obj d)))
  | PyData.listVal l => Except.ok (utf8 (jsonDumps (PyJson.arr l)))
  | _ => Except.error (PyError.valueError "Unsupported data type for buffer conversion")

/-- C9 counterexample: a boolean is not a str, bytes, bytearray, BytesIO,
int, float, dict or list value in the claim's enumeration, yet normalization
does not fail on it: `isinstance(True, int)` holds, so the int branch
silently serializes True and False to the UTF-8 bytes of the texts True and
False — which are not decimal text representations either. -/
theorem normalize_bool_silently_serialized :
    normalize_primitive_data (PyData.boolVal true) = Except.ok (utf8 "True")
    ∧ normalize_primitive_data (PyData.boolVal false) = Except.ok (utf8 "False")
    ∧ pyBoolStr true ≠ toString (1 : Int) :=
  ⟨rfl, rfl, by decide⟩

/-- C9 amended: primitive-value normalization maps strings to their UTF-8
bytes, ints and floats to the UTF-8 bytes of their decimal text, dicts and
lists to the UTF-8 bytes of their JSON serialization, and passes bytes,
bytearray and BytesIO contents through unchanged; a bool, being an int
instance, is silently serialized through the int branch to the UTF-8 bytes
of the text True or False rather than failing; every input of any remaining
type fails with an error. -/
theorem normalize_primitive_data_spec :
    (∀ s, normalize_primitive_data (PyData.str s) = Except.ok (utf8 s))
    ∧ (∀ n : Int, normalize_primitive_data (PyData.intVal n) = Except.ok (utf8 (toString n)))
    ∧ (∀ text, normalize_primitive_data (PyData.floatVal text) = Except.ok (utf8 text))
    ∧ (∀ d, normalize_primitive_data (PyData.dictVal d)
        = Except.ok (utf8 (jsonDumps (PyJson.obj d))))
    ∧ (∀ l, normalize_primitive_data (PyData.listVal l)
        = Except.ok (utf8 (jsonDumps (PyJson.arr l))))
    ∧ (∀ b, normalize_primitive_data (PyData.bytesVal b) = Except.ok b)
    ∧ (∀ b, normalize_primitive_data (PyData.byteArrayVal b) = Except.ok b)
    ∧ (∀ b, normalize_primitive_data (PyData.bytesBuf b) = Except.ok b)
    ∧ (∀ b : Bool, normalize_primitive_data (PyData.boolVal b)
        = Except.ok (utf8 (pyBoolStr b)))
    ∧ (∃ msg, normalize_primitive_data PyData.none_ = Except.error (PyError.valueError msg))
    ∧ (∃ msg, normalize_primitive_data PyData.other = Except.error (PyError.valueError msg)) := by
  refine ⟨fun s => rfl, fun n => rfl, fun text => rfl, fun d => rfl, fun l => rfl,
    fun b => rfl, fun b => rfl, fun b => rfl, fun b => rfl, ⟨_, rfl⟩, ⟨_, rfl⟩⟩

/-! ## Source classifier
(`InputSourceResolver.resolve`, resolvers/input_source_resolver.py lines
64-132, and the legacy variant helpers/input_source_resolver.py lines 11-43). -/

/-- Python str.strip(): drop leading and trailing whitespace. -/
def pyStrip (s : String) : String :=
  String.mk (((s.data.dropWhile Char.isWhitespace).reverse.dropWhile Char.isWhitespace).reverse)

/-- Python str.lower(): lowercase every character. -/
def pyLower (s : String) : String :=
  String.mk (s.data.map Char.toLower)

/-- Characters allowed in a URL scheme after its leading letter. -/
def isSchemeChar (c : Char) : Bool :=
  c.isAlphanum || c = '+' || c = '-' || c = '.'

/-- Split a character list at its first colon, keeping both sides. -/
def findColon : List Char → Option (List Char × List Char)
  | [] => none
  | c :: rest =>
    if c = ':' then some ([], rest)
    else
      match findColon rest with
      | none => none
      | some (before, after) => some (c :: before, after)

/-- A non-empty letter-led run of scheme characters. -/
def validScheme : List Char → Bool
  | [] => false
  | c :: rest => c.isAlpha && rest.all isSchemeChar

/-- The network location: present only after a leading double slash, running
to the next slash, question mark or hash. -/
def netlocOf : List Char → List Char
  | '/' :: '/' :: rest =>
    rest.takeWhile (fun c => !(c = '/' || c = '?' || c = '#'))
  | _ => []

/-- Model of the fragment of `urllib.parse.urlparse` that `is_url` inspects:
the lowercased scheme (recognized only when a valid scheme run precedes the
first colon) and the network location. -/
def urlSchemeNetloc (s : String) : String × String :=
  let cs := s.data
  match findColon cs with
  | some (before, after) =>
    if validScheme before then
      (String.mk (before.map Char.toLower), String.mk (netlocOf after))
    else ("", String.mk (netlocOf cs))
  | none => ("", String.mk (netlocOf cs))

/-- InputSourceResolver._is_url (resolvers/input_source_resolver.py lines
89-97): the parse has scheme http or https and a non-empty netloc. -/
def is_url (s : String) : Bool :=
  let p := urlSchemeNetloc s
  (p.1 = "http" || p.1 = "https") && !(p.2 = "")

namespace InputSourceResolver

/-- InputSourceResolver.resolve (resolvers/input_source_resolver.py lines
64-87): the elif chain None, Path, async stream, sync stream (a BytesIO is an
IOBase and hence a sync stream), string, anything else.  The filesystem
snapshot `fs` lists the paths that exist on disk. -/
def resolve (fs : List String) : PyData → Except PyError InputSource
  | PyData.none_ => Except.error (PyError.valueError "Input data cannot be None")
  | PyData.pathVal p =>
    if fs.contains p then Except.ok InputSource.File
    else Except.error (PyError.fileNotFoundError "No file exists at the specified location")
  | PyData.asyncStreamObj => Except.ok InputSource.Stream
  | PyData.syncStreamObj => Except.ok InputSource.Stream
  | PyData.bytesBuf _ => Except.ok InputSource.Stream
  | PyData.str s =>
    let stripped := pyStrip s
    if is_url stripped then Except.ok InputSource.Link
    else if fs.contains stripped then Except.ok InputSource.File
    else Except.ok InputSource.Primitive
  | _ => Except.ok InputSource.Primitive

end InputSourceResolver

namespace HelpersInputSourceResolver

/-- Legacy InputSourceResolver.resolve (helpers/input_source_resolver.py
lines 11-34): strings are checked first and a non-URL, non-existing string
containing the path separator raises FileNotFoundError; then Path, then the
duck-typed stream check (read or async iteration, so a BytesIO counts), then
Primitive (None included, since the helper never checks for None). -/
def resolve (fs : List String) : PyData → Except PyError InputSource
  | PyData.str s =>
    let stripped := pyStrip s
    if is_url stripped then Except.ok InputSource.Link
    else if fs.contains stripped then Except.ok InputSource.File
    else if stripped.data.contains '/' then
      Except.error (PyError.fileNotFoundError
        ("InputSourceResolver: file not found at " ++ stripped))
    else Except.ok InputSource.Primitive
  | PyData.pathVal p =>
    if fs.contains p then Except.ok InputSource.File
    else Except.error (PyError.fileNotFoundError
      ("InputSourceResolver: file not found at " ++ p))
  | PyData.asyncStreamObj => Except.ok InputSource.Stream
  | PyData.syncStreamObj => Except.ok InputSource.Stream
  | PyData.bytesBuf _ => Except.ok InputSource.Stream
  | _ => Except.ok InputSource.Primitive

end HelpersInputSourceResolver

/-- C7 counterexample: the string "missing/file.txt" trims to itself, is not
an http or https URL, exists nowhere on the (empty) filesystem snapshot, and
contains the path separator — yet the classifier the managers dispatch
through (resolvers/input_source_resolver.py) returns Primitive instead of
failing with the not-found error the claim states. -/
theorem classifier_separator_string_returns_primitive :
    is_url (pyStrip "missing/file.txt") = false
    ∧ (pyStrip "missing/file.txt").data.contains '/' = true
    ∧ InputSourceResolver.resolve [] (PyData.str "missing/file.txt")
        = Except.ok InputSource.Primitive :=
  ⟨rfl, rfl, rfl⟩

/-- C7 amended: for every string that, after trimming, is neither an
http/https URL nor an existing path, the classifier in use by the managers
returns Primitive whether or not the string contains a path separator; only
the legacy helper variant fails with the not-found error on a path separator
and returns Primitive otherwise. -/
theorem classifier_nonexistent_string_classification (s : String) (fs : List String)
    (h1 : is_url (pyStrip s) = false) (h2 : fs.contains (pyStrip s) = false) :
    InputSourceResolver.resolve fs (PyData.str s) = Except.ok InputSource.Primitive
    ∧ HelpersInputSourceResolver.resolve fs (PyData.str s) =
      (if (pyStrip s).data.contains '/' then
        Except.error (PyError.fileNotFoundError
          ("InputSourceResolver: file not found at " ++ pyStrip s))
      else Except.ok InputSource.Primitive) := by
  have h2m : pyStrip s ∉ fs := by simpa using h2
  constructor
  · simp [InputSourceResolver.resolve, h1, h2m]
  · simp [HelpersInputSourceResolver.resolve, h1, h2m]

theorem classifier_nonexistent_string_classification_witness :
    InputSourceResolver.resolve [] (PyData.str "missing/file.txt")
      = Except.ok InputSource.Primitive
    ∧ HelpersInputSourceResolver.resolve [] (PyData.str "missing/file.txt")
      = Except.error (PyError.fileNotFoundError
          "InputSourceResolver: file not found at missing/file.txt") := by
  have h := classifier_nonexistent_string_classification "missing/file.txt" []
    (by decide) (by decide)
  refine ⟨h.1, ?_⟩
  rw [h.2]
  rfl

/-! ## Per-item dispatch
(`ModelUploadManager._handle_asset_upload`, model_upload_manager.py lines
156-177, and `InvocationManager._handle_input_upload`, invocation_manager.py
lines 169-187). -/

/-- The transfer or submit operation a dispatch branch runs for one item. -/
inductive UploadAction where
  | primitiveUpload (data : PyData)
  | fileUpload (data : PyData)
  | streamUpload (data : PyData)
  | linkSubmit (data : PyData)

/-- The value held by the local variable `source` at the branch point of
`_handle_asset_upload`: either the raw item data (the declared-source branch
assigns `source = asset.data`) or an `InputSource` member from the
classifier. -/
inductive SourceKey where
  | fromData (v : PyData)
  | fromEnum (s : InputSource)

/-- Python equality between the branch scrutinee and a string literal: a raw
string compares by content, an `InputSource` member compares through its
string-enum value, and every non-string value is unequal to any string. -/
def sourceKeyMatches : SourceKey → String → Bool
  | SourceKey.fromData (PyData.str s), lit => s = lit
  | SourceKey.fromData _, _ => false
  | SourceKey.fromEnum s, lit => InputSource.value s = lit

/-- Text the f-string interpolation produces for the branch scrutinee in the
invalid-source error message. -/
def sourceKeyText : SourceKey → String
  | SourceKey.fromData (PyData.str s) => s
  | SourceKey.fromData (PyData.intVal n) => toString n
  | SourceKey.fromData _ => "object"
  | SourceKey.fromEnum s => "InputSource." ++ InputSource.value s

/-- ModelUploadManager._handle_asset_upload (model_upload_manager.py lines
156-177).  When the configuration declares a source the code assigns
`source = asset.data` — the item data, not the declared source (the source
carries an inline note that this is likely a logic bug) — and only consults
the classifier when the source is absent; it then branches on string
comparisons against File, Stream and Link, with no Primitive branch. -/
def handle_asset_upload (fs : List String) (asset_source : Option InputSource)
    (asset_data : PyData) : Except PyError UploadAction :=
  let key : Except PyError SourceKey :=
    match asset_source with
    | some _ => Except.ok (SourceKey.fromData asset_data)
    | none => (InputSourceResolver.resolve fs asset_data).map SourceKey.fromEnum
  match key with
  | Except.error e => Except.error e
  | Except.ok k =>
    if sourceKeyMatches k "File" then Except.ok (UploadAction.fileUpload asset_data)
    else if sourceKeyMatches k "Stream" then Except.ok (UploadAction.streamUpload asset_data)
    else if sourceKeyMatches k "Link" then Except.ok (UploadAction.linkSubmit asset_data)
    else Except.error (PyError.valueError
      ("Invalid model asset source: " ++ sourceKeyText k))

/-- InvocationManager._handle_input_upload (invocation_manager.py lines
169-187): `source = input_config.source or InputSourceResolver.resolve(data)`
followed by string comparisons against Primitive, File, Stream and Link. -/
def handle_input_upload (fs : List String) (input_source : Option InputSource)
    (data : PyData) : Except PyError UploadAction :=
  let key : Except PyError InputSource :=
    match input_source with
    | some s => Except.ok s
    | none => InputSourceResolver.resolve fs data
  match key with
  | Except.error e => Except.error e
  | Except.ok s =>
    if InputSource.value s = "Primitive" then Except.ok (UploadAction.primitiveUpload data)
    else if InputSource.value s = "File" then Except.ok (UploadAction.fileUpload data)
    else if InputSource.value s = "Stream" then Except.ok (UploadAction.streamUpload data)
    else if InputSource.value s = "Link" then Except.ok (UploadAction.linkSubmit data)
    else Except.error (PyError.valueError
      ("Unsupported input source: InputSource." ++ InputSource.value s))

/-- C4: evaluation of the asset dispatcher at the failing input.  An asset
whose configuration declares source File with data "model.bin" is not
dispatched as a file upload: the branch key is the item data, so the call
fails with the invalid-source error naming the data.  Worse, declaring source
File with data "Link" dispatches a link submission.  The invocation-side
dispatcher, by contrast, branches on the declared source as the claim
states. -/
theorem asset_dispatch_branches_on_data_not_declared_source :
    handle_asset_upload [] (some InputSource.File) (PyData.str "model.bin")
      = Except.error (PyError.valueError "Invalid model asset source: model.bin")
    ∧ handle_asset_upload [] (some InputSource.File) (PyData.str "Link")
      = Except.ok (UploadAction.linkSubmit (PyData.str "Link"))
    ∧ handle_input_upload [] (some InputSource.File) (PyData.str "model.bin")
      = Except.ok (UploadAction.fileUpload (PyData.str "model.bin")) :=
  ⟨rfl, rfl, rfl⟩

/-! ## Authentication refresh
(`AuthenticationManager.invalidate_access_token`, authentication_manager.py
lines 139-141, and `access_token_expired`, lines 41-50). -/

/-- The held access token as `access_token_expired` sees it: nothing held, a
held token whose JWT payload decodes to the expiry `exp`, or a held token
whose decoding raises. -/
inductive TokenState where
  | absent
  | held (exp : Int)
  | heldUndecodable
deriving DecidableEq, Repr

/-- AuthenticationManager.access_token_expired (authentication_manager.py
lines 41-50): true when no token is held, when decoding fails, or when the
decoded expiry lies before the current time. -/
def access_token_expired (t : TokenState) (now : Int) : Bool :=
  match t with
  | TokenState.absent => true
  | TokenState.held exp => exp < now
  | TokenState.heldUndecodable => true

/-- The condition `invalidate_access_token` actually tests
(authentication_manager.py line 140): the source reads
`if self.access_token_expired:` without calling the method, so the tested
value is the bound-method object itself, which is always truthy. -/
def invalidate_access_token_condition (_t : TokenState) (_now : Int) : Bool :=
  true

/-- AuthenticationManager.invalidate_access_token (authentication_manager.py
lines 139-141): re-login with the api key when the tested condition holds.
Returns the resulting token state and whether a login call was made. -/
def invalidate_access_token (t : TokenState) (now : Int) (fresh : TokenState) :
    TokenState × Bool :=
  if invalidate_access_token_condition t now then (fresh, true) else (t, false)

/-- C6: evaluation at the failing input.  With a held, unexpired token (the
expiry 2000 lies after the current time 1000) `access_token_expired` is
false, yet `invalidate_access_token` still performs a login call, because the
code tests the truthiness of the bound method instead of calling it. -/
theorem auth_refresh_relogs_in_despite_valid_token :
    access_token_expired (TokenState.held 2000) 1000 = false
    ∧ (invalidate_access_token (TokenState.held 2000) 1000 (TokenState.held 5000)).2 = true
    ∧ ∀ t now fresh, (invalidate_access_token t now fresh).2 = true := by
  refine ⟨by decide, rfl, fun t now fresh => rfl⟩

/-! ## Modality classifiers
(`SignatureModalityResolver.resolve`, signature_modality_resolver.py lines
69-76, and `ParameterModalityResolver.resolve`,
parameter_modality_resolver.py lines 71-78). -/

/-- Data modality, from `norman_objects.shared.parameters.data_modality`. -/
inductive DataModality where
  | Audio
  | Image
  | Text
  | Video
  | Float
  | Integer
  | File
deriving DecidableEq, Repr

/-- The normalization `encoding.lower().strip()` both resolvers apply before
the table lookup. -/
def normalize_encoding (encoding : String) : String :=
  pyStrip (pyLower encoding)

namespace SignatureModalityResolver

/-- The fixed signature-level table `_Encoding_Map`
(signature_modality_resolver.py lines 18-37). -/
def encodingMap : List (String × DataModality) :=
  [("aac", DataModality.Audio), ("mp3", DataModality.Audio), ("wav", DataModality.Audio),
   ("jpg", DataModality.Image), ("jpeg", DataModality.Image), ("png", DataModality.Image),
   ("txt", DataModality.Text), ("utf-8", DataModality.Text), ("utf-16", DataModality.Text),
   ("avi", DataModality.Video), ("mp4", DataModality.Video)]

/-- SignatureModalityResolver.resolve (signature_modality_resolver.py lines
69-76) on string input: normalize, look up in the fixed table, raise
ValueError naming the normalized token when absent. -/
def resolve (encoding : String) : Except PyError DataModality :=
  let stripped := normalize_encoding encoding
  match encodingMap.lookup stripped with
  | none => Except.error (PyError.valueError ("Unknown signature encoding: " ++ stripped))
  | some m => Except.ok m

end SignatureModalityResolver

namespace ParameterModalityResolver

/-- The fixed parameter-level table `_Encoding_Map`
(parameter_modality_resolver.py lines 18-40). -/
def encodingMap : List (String × DataModality) :=
  [("aac", DataModality.Audio), ("mp3", DataModality.Audio), ("wav", DataModality.Audio),
   ("jpg", DataModality.Image), ("jpeg", DataModality.Image), ("png", DataModality.Image),
   ("utf-8", DataModality.Text), ("utf-16", DataModality.Text),
   ("h264", DataModality.Video), ("h265", DataModality.Video),
   ("libx264", DataModality.Video), ("rgb24", DataModality.Video),
   ("x264", DataModality.Video), ("yuv420p", DataModality.Video)]

/-- ParameterModalityResolver.resolve (parameter_modality_resolver.py lines
71-78) on string input: normalize, look up in the fixed table, raise
ValueError naming the normalized token when absent. -/
def resolve (encoding : String) : Except PyError DataModality :=
  let stripped := normalize_encoding encoding
  match encodingMap.lookup stripped with
  | none => Except.error (PyError.valueError ("Unknown parameter encoding: " ++ stripped))
  | some m => Except.ok m

end ParameterModalityResolver

/-- C8: for both modality tables, resolve is the fixed-table lookup of the
normalized (lowercased, trimmed) encoding — classification is case- and
whitespace-insensitive, a successful result always comes from the table
(never a default), and an encoding whose normalized form is absent from the
table fails with the invalid-argument error naming that token. -/
theorem modality_resolve_is_normalized_table_lookup :
    (∀ e₁ e₂ : String, normalize_encoding e₁ = normalize_encoding e₂ →
      SignatureModalityResolver.resolve e₁ = SignatureModalityResolver.resolve e₂
      ∧ ParameterModalityResolver.resolve e₁ = ParameterModalityResolver.resolve e₂)
    ∧ (∀ e m, SignatureModalityResolver.resolve e = Except.ok m ↔
        SignatureModalityResolver.encodingMap.lookup (normalize_encoding e) = some m)
    ∧ (∀ e m, ParameterModalityResolver.resolve e = Except.ok m ↔
        ParameterModalityResolver.encodingMap.lookup (normalize_encoding e) = some m)
    ∧ (∀ e, SignatureModalityResolver.encodingMap.lookup (normalize_encoding e) = none →
        SignatureModalityResolver.resolve e = Except.error
          (PyError.valueError ("Unknown signature encoding: " ++ normalize_encoding e)))
    ∧ (∀ e, ParameterModalityResolver.encodingMap.lookup (normalize_encoding e) = none →
        ParameterModalityResolver.resolve e = Except.error
          (PyError.valueError ("Unknown parameter encoding: " ++ normalize_encoding e))) := by
  refine ⟨fun e₁ e₂ h => ?_, fun e m => ?_, fun e m => ?_, fun e h => ?_, fun e h => ?_⟩
  · constructor
    · simp only [SignatureModalityResolver.resolve, h]
    · simp only [ParameterModalityResolver.resolve, h]
  · rw [SignatureModalityResolver.resolve]
    cases hl : SignatureModalityResolver.encodingMap.lookup (normalize_encoding e) <;> simp
  · rw [ParameterModalityResolver.resolve]
    cases hl : ParameterModalityResolver.encodingMap.lookup (normalize_encoding e) <;> simp
  · rw [SignatureModalityResolver.resolve, h]
  · rw [ParameterModalityResolver.resolve, h]

theorem modality_resolve_witness :
    SignatureModalityResolver.resolve " MP4 " = SignatureModalityResolver.resolve "mp4"
    ∧ ParameterModalityResolver.resolve " H264 " = ParameterModalityResolver.resolve "h264"
    ∧ SignatureModalityResolver.resolve "webm"
        = Except.error (PyError.valueError "Unknown signature encoding: webm") := by
  refine ⟨(modality_resolve_is_normalized_table_lookup.1 " MP4 " "mp4" (by decide)).1,
    (modality_resolve_is_normalized_table_lookup.1 " H264 " "h264" (by decide)).2, ?_⟩
  have h := modality_resolve_is_normalized_table_lookup.2.2.2.1 "webm" (by decide)
  simpa using h

/-! ## Output resolution
(`InvocationManager._resolve_outputs`, invocation_manager.py lines 287-317,
and `ResponseHandler`, objects/handles/response_handler.py). -/

/-- Modelled from the spec and its unit test: the `ConsumeMode` module is
imported by the invocation output config but absent from src/; per its test
(tests/unit/objects/configs/invocation/consume_mode_test.py) it is a string
enum with members Bytes = "bytes" and Stream = "stream", naming the
`ResponseHandler` method to call. -/
inductive ConsumeMode where
  | Bytes
  | Stream
deriving DecidableEq, Repr

/-- A retrieval handle: the finite sequence of byte chunks its asynchronous
stream yields. -/
structure ResponseHandler where
  chunks : List (List Nat)
deriving DecidableEq, Repr

/-- ResponseHandler.bytes (response_handler.py lines 17-30): drain the byte
stream to completion, accumulating every chunk. -/
def ResponseHandler.bytesOf (h : ResponseHandler) : List Nat :=
  h.chunks.flatten

/-- ResponseHandler.stream (response_handler.py lines 32-40): hand back the
raw stream for the caller to drain. -/
def ResponseHandler.streamOf (h : ResponseHandler) : List (List Nat) :=
  h.chunks

/-- A resolved output value: accumulated bytes, or an open stream handle. -/
inductive ResolvedOutput where
  | bytesOut (b : List Nat)
  | streamOut (s : List (List Nat))
deriving DecidableEq, Repr

/-- The dispatch `getattr(response_handler, consume_mode.value)` for the two
enum values. -/
def consumeWith : ConsumeMode → ResponseHandler → ResolvedOutput
  | ConsumeMode.Bytes, h => ResolvedOutput.bytesOut (ResponseHandler.bytesOf h)
  | ConsumeMode.Stream, h => ResolvedOutput.streamOut (ResponseHandler.streamOf h)

/-- Per-output body of `_resolve_outputs` (invocation_manager.py lines
299-315): look the display title up in the caller output configuration; a
missing entry, or an entry whose consume_mode is None, selects the bytes
method; otherwise the configured method runs. -/
def resolve_output (output_configs : List (String × Option ConsumeMode))
    (display_title : String) (handler : ResponseHandler) : ResolvedOutput :=
  match output_configs.lookup display_title with
  | some consume_mode =>
    match consume_mode with
    | none => ResolvedOutput.bytesOut (ResponseHandler.bytesOf handler)
    | some mode => consumeWith mode handler
  | none => ResolvedOutput.bytesOut (ResponseHandler.bytesOf handler)

/-- InvocationManager._resolve_outputs (invocation_manager.py lines 287-317):
resolve every retrieved handler into the invocation results map. -/
def resolve_outputs (output_configs : List (String × Option ConsumeMode))
    (response_handlers : List (String × ResponseHandler)) :
    List (String × ResolvedOutput) :=
  response_handlers.map (fun p => (p.1, resolve_output output_configs p.1 p.2))

/-- C10: every output whose name has no entry in the caller output
configuration, or whose configured consume_mode is absent, resolves to the
accumulated bytes of the drained handle stream — the bytes mode is the
default — not to an open stream handle, and the results map carries that
drained value for the output. -/
theorem outputs_default_to_drained_bytes
    (output_configs : List (String × Option ConsumeMode)) (display_title : String)
    (handler : ResponseHandler)
    (hc : output_configs.lookup display_title = none
      ∨ output_configs.lookup display_title = some none) :
    resolve_output output_configs display_title handler
      = ResolvedOutput.bytesOut handler.chunks.flatten
    ∧ ∀ response_handlers, (display_title, handler) ∈ response_handlers →
        (display_title, ResolvedOutput.bytesOut handler.chunks.flatten)
          ∈ resolve_outputs output_configs response_handlers := by
  have h1 : resolve_output output_configs display_title handler
      = ResolvedOutput.bytesOut handler.chunks.flatten := by
    rcases hc with hc | hc <;> simp [resolve_output, hc, ResponseHandler.bytesOf]
  refine ⟨h1, fun response_handlers hm => ?_⟩
  have := List.mem_map_of_mem
    (fun p => (p.1, resolve_output output_configs p.1 p.2)) hm
  simpa [resolve_outputs, h1] using this

theorem outputs_default_to_drained_bytes_witness :
    resolve_output [("other", some ConsumeMode.Stream)] "out" ⟨[[1, 2], [3]]⟩
      = ResolvedOutput.bytesOut [1, 2, 3]
    ∧ resolve_output [("out", none)] "out" ⟨[[1, 2], [3]]⟩
      = ResolvedOutput.bytesOut [1, 2, 3] := by
  refine ⟨?_, ?_⟩
  · have h := (outputs_default_to_drained_bytes [("other", some ConsumeMode.Stream)]
      "out" ⟨[[1, 2], [3]]⟩ (Or.inl (by decide))).1
    simpa using h
  · have h := (outputs_default_to_drained_bytes [("out", none)]
      "out" ⟨[[1, 2], [3]]⟩ (Or.inr (by decide))).1
    simpa using h

end NormanSdk
